import Mathlib

/-!
Shallow embedding of the session lifecycle of the AtlasAppServicesClient
(src/src/client.ts).  The client keeps a mutable session (access token,
refresh token, expiry instant, resolved identity) and refreshes it lazily
before handing out per-resource API handles.  Remote endpoints are modelled
as an environment of prearranged outcomes; every operation is a pure
function from environment and client state to a final state, an outcome,
and the list of network calls it issued.
-/

namespace AtlasClient

/-- JS truthiness of an optional string field: undefined, null and the empty
string are falsy. -/
def truthy : Option String → Bool
  | none => false
  | some s => !(s == "")

/-- Body of a successful adminLogin response (loginResponse.data). -/
structure AdminLoginData where
  access_token : Option String
  refresh_token : Option String
  user_id : Option String
deriving DecidableEq, Repr

/-- The adminLogin HTTP response; its data field may be missing. -/
structure LoginResponse where
  data : Option AdminLoginData
deriving DecidableEq, Repr

/-- One application record returned by adminListApplications. -/
structure AppRecord where
  _id : Option String
  client_app_id : Option String
  group_id : Option String
deriving DecidableEq, Repr

/-- The adminListApplications HTTP response. -/
structure AppsResponse where
  data : Option (List AppRecord)
deriving DecidableEq, Repr

/-- Body of an adminCreateSession response (refreshResponse.data). -/
structure SessionData where
  access_token : Option String
deriving DecidableEq, Repr

/-- The adminCreateSession HTTP response; data may be missing. -/
structure SessionResponse where
  data : Option SessionData
deriving DecidableEq, Repr

/-- Shape of an error thrown by a remote call, as seen by the catch block in
ensureValidAccessToken: an axios-style HTTP error carries a response object,
a pure transport error does not. -/
structure ThrownError where
  hasResponse : Bool
deriving DecidableEq, Repr

/-- Outcome of one remote call: a resolved response or a thrown error. -/
inductive NetResult (α : Type)
  | ok (value : α)
  | thrown (err : ThrownError)
deriving DecidableEq, Repr

/-- The environment: prearranged outcomes of the three remote endpoints the
session lifecycle touches, and the current clock reading in milliseconds.
adminCreateSession may resolve to a null response, hence the extra Option. -/
structure Env where
  now : Int
  loginResult : NetResult LoginResponse
  appsResult : NetResult AppsResponse
  refreshResult : NetResult (Option SessionResponse)
deriving DecidableEq, Repr

/-- The mutable fields of AtlasAppServicesClient that make up its session
state.  configAccessToken is configParams.accessToken, the credential slot
shared with every API instance built from configParams. -/
structure ClientState where
  groupId : Option String
  appId : Option String
  clientAppId : Option String
  userId : Option String
  accessToken : Option String
  refreshToken : Option String
  tokenExpiration : Option Int
  configAccessToken : Option String
deriving DecidableEq, Repr

/-- State right after the constructor ran: only groupId is populated, from
the caller-supplied configuration. -/
def initialState (groupId : String) : ClientState :=
  { groupId := some groupId
    appId := none
    clientAppId := none
    userId := none
    accessToken := none
    refreshToken := none
    tokenExpiration := none
    configAccessToken := none }

/-- Errors the client operations can terminate with.  rethrown is a thrown
transport error propagated unchanged; typeErrorReadingResponse is the
TypeError raised when a log template dereferences a missing response field. -/
inductive ClientError
  | unauthorizedException
  | appIdRetrievalError
  | apiDoesNotExist
  | rethrown (err : ThrownError)
  | typeErrorReadingResponse
deriving DecidableEq, Repr

/-- A network call issued by an operation.  adminCreateSession records the
bearer credential installed in configParams at the moment of the call. -/
inductive NetCall
  | adminLogin
  | adminListApplications
  | adminCreateSession (bearer : Option String)
deriving DecidableEq, Repr

/-- Result of an operation that returns no value. -/
inductive OpResult
  | ok
  | error (e : ClientError)
deriving DecidableEq, Repr

/-- Final state, outcome and network trace of one client operation. -/
structure OpOutcome where
  state : ClientState
  result : OpResult
  calls : List NetCall
deriving DecidableEq, Repr

/-- setAccessToken: stamps a fresh expiry of now + 30 minutes and installs
the token both in the accessToken field and in the shared config slot. -/
def setAccessToken (now : Int) (token : String) (s : ClientState) : ClientState :=
  { s with
    tokenExpiration := some (now + 30 * 60 * 1000)
    accessToken := some token
    configAccessToken := some token }

/-- doAdminLogin: exchanges the key pair for a session.  A response lacking
data, a truthy access_token or a truthy refresh_token raises
UnauthorizedException without touching the session; otherwise the access
token (with fresh expiry), refresh token and user id are stored. -/
def doAdminLogin (env : Env) (s : ClientState) : OpOutcome :=
  match env.loginResult with
  | .thrown e => ⟨s, .error (.rethrown e), [.adminLogin]⟩
  | .ok resp =>
    match resp.data with
    | none => ⟨s, .error .unauthorizedException, [.adminLogin]⟩
    | some d =>
      match d.access_token with
      | none => ⟨s, .error .unauthorizedException, [.adminLogin]⟩
      | some tok =>
        match d.refresh_token with
        | none => ⟨s, .error .unauthorizedException, [.adminLogin]⟩
        | some rt =>
          if tok = "" ∨ rt = "" then
            ⟨s, .error .unauthorizedException, [.adminLogin]⟩
          else
            ⟨{ (setAccessToken env.now tok s) with
                refreshToken := some rt
                userId := d.user_id },
              .ok, [.adminLogin]⟩

/-- First element of the application list, when the data field is present
and non-empty (data[0] in the source). -/
def firstApp : Option (List AppRecord) → Option AppRecord
  | none => none
  | some [] => none
  | some (a :: _) => some a

/-- loginAndAppSetup: doAdminLogin, then adminListApplications with the
catalog filter.  If the list is missing, empty, or its first record has no
truthy _id, AppIdRetrievalError is raised (after the login already mutated
the token fields); otherwise appId, clientAppId and groupId are overwritten
from the first record. -/
def loginAndAppSetup (env : Env) (s : ClientState) : OpOutcome :=
  match doAdminLogin env s with
  | ⟨s1, .error e, tr⟩ => ⟨s1, .error e, tr⟩
  | ⟨s1, .ok, tr⟩ =>
    match env.appsResult with
    | .thrown e => ⟨s1, .error (.rethrown e), tr ++ [.adminListApplications]⟩
    | .ok resp =>
      match firstApp resp.data with
      | none => ⟨s1, .error .appIdRetrievalError, tr ++ [.adminListApplications]⟩
      | some a =>
        match a._id with
        | none => ⟨s1, .error .appIdRetrievalError, tr ++ [.adminListApplications]⟩
        | some i =>
          if i = "" then
            ⟨s1, .error .appIdRetrievalError, tr ++ [.adminListApplications]⟩
          else
            ⟨{ s1 with
                appId := some i
                clientAppId := a.client_app_id
                groupId := a.group_id },
              .ok, tr ++ [.adminListApplications]⟩

/-- The public entry point of the lifecycle: it just delegates to
loginAndAppSetup (method named initialize in the source). -/
def initClient (env : Env) (s : ClientState) : OpOutcome :=
  loginAndAppSetup env s

/-- isAccessTokenValid: an expiry instant exists and the clock is still more
than 30 seconds before it. -/
def isAccessTokenValid (now : Int) (s : ClientState) : Bool :=
  match s.tokenExpiration with
  | none => false
  | some exp => decide (now < exp - 30 * 1000)

/-- Whether a caught error object carries an axios-style response field,
which is what the catch block's log template dereferences: only a thrown
transport error may carry one; the client's own exceptions (the
UnauthorizedException, the AppIdRetrievalError) and a TypeError do not. -/
def errorHasResponse : ClientError → Bool
  | .rethrown err => err.hasResponse
  | _ => false

/-- The fallback awaited inside the try block when the renewal response
carries no usable token.  Because it sits inside the try, a failure of this
loginAndAppSetup is caught by the catch block, whose log template
dereferences error.response.data: a caught error without a response object
surfaces as a TypeError, while a caught error with one makes the catch
block run loginAndAppSetup a second time, from the state the first attempt
left behind, and that second outcome propagates. -/
def fallbackInsideTry (env : Env) (s1 : ClientState) (call : NetCall) : OpOutcome :=
  let o := loginAndAppSetup env s1
  match o.result with
  | .ok => ⟨o.state, .ok, call :: o.calls⟩
  | .error e2 =>
    if errorHasResponse e2 then
      let o2 := loginAndAppSetup env o.state
      ⟨o2.state, o2.result, call :: o.calls ++ o2.calls⟩
    else
      ⟨o.state, .error .typeErrorReadingResponse, call :: o.calls⟩

/-- ensureValidAccessToken: return at once when the token is valid.
Otherwise install the refresh token in the shared config slot and call
adminCreateSession.  A usable access token in the response is stamped in; a
response without one triggers the in-try fallback (fallbackInsideTry).  A
renewal call that throws is handled by the catch block directly: with a
response object it falls back to loginAndAppSetup, whose outcome then
propagates unchanged (no further catch); without one the log template
raises a TypeError.  A null renewal response makes the in-try log template
raise a TypeError that the catch block turns into another TypeError. -/
def ensureValidAccessToken (env : Env) (s : ClientState) : OpOutcome :=
  if isAccessTokenValid env.now s then ⟨s, .ok, []⟩
  else
    let s1 := { s with configAccessToken := s.refreshToken }
    let call := NetCall.adminCreateSession s.refreshToken
    match env.refreshResult with
    | .thrown e =>
      if e.hasResponse then
        let o := loginAndAppSetup env s1
        ⟨o.state, o.result, call :: o.calls⟩
      else
        ⟨s1, .error .typeErrorReadingResponse, [call]⟩
    | .ok none =>
      ⟨s1, .error .typeErrorReadingResponse, [call]⟩
    | .ok (some resp) =>
      match resp.data with
      | none => fallbackInsideTry env s1 call
      | some d =>
        match d.access_token with
        | none => fallbackInsideTry env s1 call
        | some tok =>
          if tok = "" then
            fallbackInsideTry env s1 call
          else
            ⟨setAccessToken env.now tok s1, .ok, [call]⟩

/-- The closed catalog of API classes reachable through the atlas- accessor
methods. -/
def apiCatalog : List String :=
  ["AdminApi", "ApikeysApi", "AppsApi", "AuthprovidersApi", "BillingApi",
   "CustomUserDataApi", "DataApiApi", "DependenciesApi", "DeployApi",
   "EmailApi", "EndpointsApi", "EnvironmentsApi", "EventSubscriptionsApi",
   "FunctionsApi", "GraphqlApi", "HostingApi", "LogForwardersApi",
   "LogsApi", "MetricsApi", "NotificationsApi", "RulesApi", "SchemasApi",
   "SecretsApi", "SecurityApi", "ServicesApi", "SyncApi", "TriggersApi",
   "UsersApi", "ValuesApi", "WebhooksApi"]

/-- A resource handle: the API class name plus the credential snapshot
baked in from configParams at construction time. -/
structure ApiHandle where
  apiName : String
  accessToken : Option String
deriving DecidableEq, Repr

/-- Result of a getApi request. -/
inductive GetApiResult
  | handle (h : ApiHandle)
  | error (e : ClientError)
deriving DecidableEq, Repr

/-- Final state, result and network trace of one getApi request. -/
structure GetApiOutcome where
  state : ClientState
  result : GetApiResult
  calls : List NetCall
deriving DecidableEq, Repr

/-- getApi: first runs ensureValidAccessToken (propagating its failure),
then looks the name up in the catalog; an unknown name raises the
API-does-not-exist error, a known one yields a handle bound to the current
config credential. -/
def getApi (env : Env) (s : ClientState) (apiName : String) : GetApiOutcome :=
  match ensureValidAccessToken env s with
  | ⟨s1, .error e, tr⟩ => ⟨s1, .error e, tr⟩
  | ⟨s1, .ok, tr⟩ =>
    if apiName ∈ apiCatalog then
      ⟨s1, .handle ⟨apiName, s1.configAccessToken⟩, tr⟩
    else
      ⟨s1, .error .apiDoesNotExist, tr⟩

/-- The session-fields view named by the completeness invariant: absent
means none of the five fields is populated. -/
def sessionAbsent (s : ClientState) : Bool :=
  s.accessToken.isNone && s.refreshToken.isNone && s.appId.isNone &&
  s.clientAppId.isNone && s.userId.isNone

/-- Complete: every one of the five session fields is populated. -/
def sessionComplete (s : ClientState) : Bool :=
  s.accessToken.isSome && s.refreshToken.isSome && s.appId.isSome &&
  s.clientAppId.isSome && s.userId.isSome

/-- Whether the first listed application carries a truthy internal id; this
is the exact success condition of the app-setup step. -/
def firstAppUsable (d : Option (List AppRecord)) : Bool :=
  match firstApp d with
  | none => false
  | some a => truthy a._id

end AtlasClient

namespace AtlasClient

/-! Concrete fixtures used by the closed theorems below. -/

/-- A fully populated session whose expiry instant lies in the past relative
to the clock readings used below. -/
def expiredState : ClientState :=
  { groupId := some ("oldGroup")
    appId := some ("oldApp")
    clientAppId := some ("oldClient")
    userId := some ("oldUser")
    accessToken := some ("oldAccess")
    refreshToken := some ("oldRefresh")
    tokenExpiration := some 100
    configAccessToken := some ("oldAccess") }

/-- A login outcome carrying usable tokens and a user id. -/
def goodLogin : NetResult LoginResponse :=
  .ok ⟨some ⟨some ("newAccess"), some ("newRefresh"), some ("newUser")⟩⟩

/-- An application-listing outcome whose first record has every field. -/
def goodApps : NetResult AppsResponse :=
  .ok ⟨some [⟨some ("newApp"), some ("newClient"), some ("newGroup")⟩]⟩

/-- Renewal throws a transport error that carries no response object. -/
def refreshCrashEnv : Env :=
  { now := 1000000
    loginResult := goodLogin
    appsResult := goodApps
    refreshResult := .thrown ⟨false⟩ }

/-- Renewal succeeds with a fresh access token. -/
def refreshOkEnv : Env :=
  { now := 1000000
    loginResult := goodLogin
    appsResult := goodApps
    refreshResult := .ok (some ⟨some ⟨some ("freshAccess")⟩⟩) }

/-- Login succeeds but the application listing comes back empty. -/
def appsEmptyEnv : Env :=
  { now := 0
    loginResult := goodLogin
    appsResult := .ok ⟨some []⟩
    refreshResult := .ok none }

/-- An application list whose first record has an empty internal id while
its second record has a usable one. -/
def secondAppUsableList : List AppRecord :=
  [⟨some (""), some ("c1"), some ("g1")⟩, ⟨some ("app2"), some ("c2"), some ("g2")⟩]

/-- Login succeeds; the listing returns secondAppUsableList. -/
def secondAppUsableEnv : Env :=
  { now := 0
    loginResult := goodLogin
    appsResult := .ok ⟨some secondAppUsableList⟩
    refreshResult := .ok none }

/-- Login succeeds; the first listed record has a usable internal id but an
empty client-facing id and an empty workspace id. -/
def emptyIdentityAppsEnv : Env :=
  { now := 0
    loginResult := goodLogin
    appsResult := .ok ⟨some [⟨some ("app1"), some (""), some ("")⟩]⟩
    refreshResult := .ok none }

/-- Login succeeds; the listing returns the one fully populated record of
goodApps. -/
def fullSuccessEnv : Env :=
  { now := 0
    loginResult := goodLogin
    appsResult := goodApps
    refreshResult := .ok none }

/-- Login returns an empty access token (unusable); renewal returns a
response without a data body. -/
def badLoginEnv : Env :=
  { now := 0
    loginResult := .ok ⟨some ⟨some (""), some ("r"), none⟩⟩
    appsResult := goodApps
    refreshResult := .ok (some ⟨none⟩) }

/-- A state holding a token that is still valid at clock 1000000. -/
def validState : ClientState :=
  setAccessToken 999000 ("curAccess") expiredState

/-- The usable token pair a login outcome yields, when it yields one: the
cases where doAdminLogin succeeds, with the stored access token, refresh
token and user id. -/
def loginGrant (env : Env) : Option (String × String × Option String) :=
  match env.loginResult with
  | .thrown _ => none
  | .ok resp =>
    match resp.data with
    | none => none
    | some d =>
      match d.access_token with
      | none => none
      | some tok =>
        match d.refresh_token with
        | none => none
        | some rt => if tok = "" ∨ rt = "" then none else some (tok, rt, d.user_id)

/-- The usable access token a renewal outcome yields, when it yields one:
the cases where ensureValidAccessToken accepts the renewal response. -/
def refreshGrant (env : Env) : Option String :=
  match env.refreshResult with
  | .thrown _ => none
  | .ok none => none
  | .ok (some resp) =>
    match resp.data with
    | none => none
    | some d =>
      match d.access_token with
      | none => none
      | some tok => if tok = "" then none else some tok

/-- Claim C1, divergence theorem: when the token is stale and the renewal
call throws an error carrying no response object (a pure network error, the
exact scenario of the claim), the catch block raises a TypeError from its
log template instead of falling back: the operation ends in the TypeError
and the only network call issued is the renewal itself, so no
login-and-resolve cycle runs at all. -/
theorem renewal_error_without_response_skips_fallback :
    (ensureValidAccessToken refreshCrashEnv expiredState).result =
      OpResult.error ClientError.typeErrorReadingResponse ∧
    (ensureValidAccessToken refreshCrashEnv expiredState).calls =
      [NetCall.adminCreateSession (some ("oldRefresh"))] := by
  decide

/-- Claim C2, counterexample: starting from the never-authenticated state,
a login that succeeds followed by an application listing that comes back
empty leaves the session neither absent nor complete: the token fields are
populated from the login while the identity fields are not. -/
theorem session_neither_absent_nor_complete_after_apps_failure :
    (initClient appsEmptyEnv (initialState ("g"))).result =
      OpResult.error ClientError.appIdRetrievalError ∧
    sessionAbsent (initClient appsEmptyEnv (initialState ("g"))).state = false ∧
    sessionComplete (initClient appsEmptyEnv (initialState ("g"))).state = false := by
  decide

/-- Claim C4, counterexample: for a token stamped at clock 0 (expiry
0 + 30min = 1800000 ms), the validity check at 0 + 29min59sec = 1799000 ms
returns invalid, not valid as the claim states: 1799000 is not more than
30 seconds before 1800000. -/
theorem validity_at_29min59sec_is_invalid :
    isAccessTokenValid 1799000 (setAccessToken 0 ("tokenA") (initialState ("g"))) = false := by
  decide

/-- Claim C4, amended: for a token whose expiry is set to now + 30 minutes,
the check is valid at now + 29min29sec, invalid at now + 29min31sec and at
now + 29min59sec (the guard boundary sits 30 seconds before expiry, at
now + 29min30sec), and invalid when no expiry instant exists. -/
theorem validity_margin_boundary :
    isAccessTokenValid 1769000 (setAccessToken 0 ("tokenA") (initialState ("g"))) = true ∧
    isAccessTokenValid 1771000 (setAccessToken 0 ("tokenA") (initialState ("g"))) = false ∧
    isAccessTokenValid 1799000 (setAccessToken 0 ("tokenA") (initialState ("g"))) = false ∧
    isAccessTokenValid 1769000 (initialState ("g")) = false := by
  decide

/-- Claim C5, counterexample: a first application record with a usable
internal id but empty client-facing and workspace ids makes the lifecycle
entry point succeed while leaving the client-facing app id and the
workspace id empty, so they are not all non-empty after success. -/
theorem init_succeeds_with_empty_identity_fields :
    (initClient emptyIdentityAppsEnv (initialState ("callerGroup"))).result = OpResult.ok ∧
    (initClient emptyIdentityAppsEnv (initialState ("callerGroup"))).state.clientAppId = some ("") ∧
    (initClient emptyIdentityAppsEnv (initialState ("callerGroup"))).state.groupId = some ("") := by
  decide

/-- Claim C7, counterexample: a listing whose second record carries a
usable internal id while the first does not still fails with the
app-id-retrieval error, although the list does contain an application with
a non-empty internal identifier. -/
theorem app_setup_fails_despite_usable_second_app :
    (loginAndAppSetup secondAppUsableEnv (initialState ("g"))).result =
      OpResult.error ClientError.appIdRetrievalError ∧
    (secondAppUsableList.any fun a => truthy a._id) = true := by
  decide

/-- Claim C9, counterexample: requesting a handle for a name outside the
catalog while the token is stale issues the renewal network call before the
unknown-resource failure is raised, so the failure is not prior to all
network traffic. -/
theorem unknown_api_request_refreshes_before_failing :
    (getApi refreshOkEnv expiredState ("NopeApi")).result =
      GetApiResult.error ClientError.apiDoesNotExist ∧
    (getApi refreshOkEnv expiredState ("NopeApi")).calls =
      [NetCall.adminCreateSession (some ("oldRefresh"))] := by
  decide

end AtlasClient

namespace AtlasClient

/-- Helper: when the login outcome yields no usable token pair,
doAdminLogin leaves the state untouched and fails after its single network
call. -/
theorem doAdminLogin_of_noGrant (env : Env) (s : ClientState)
    (h : loginGrant env = none) :
    (doAdminLogin env s).state = s ∧ (doAdminLogin env s).result ≠ OpResult.ok ∧
    (doAdminLogin env s).calls = [NetCall.adminLogin] := by
  obtain ⟨now, lr, ar, rr⟩ := env
  unfold loginGrant at h
  unfold doAdminLogin
  cases lr with
  | thrown e => simp
  | ok resp =>
    obtain ⟨data⟩ := resp
    cases data with
    | none => simp
    | some d =>
      obtain ⟨ta, tr2, tu⟩ := d
      cases ta with
      | none => simp
      | some tok =>
        cases tr2 with
        | none => simp
        | some rt =>
          by_cases hx : tok = "" ∨ rt = "" <;> simp_all

/-- Helper: when the login outcome yields no usable token pair,
loginAndAppSetup fails with the state it was given, after the single login
network call. -/
theorem loginAndAppSetup_of_noGrant (env : Env) (s : ClientState)
    (h : loginGrant env = none) :
    (loginAndAppSetup env s).state = s ∧
    (loginAndAppSetup env s).result ≠ OpResult.ok ∧
    (loginAndAppSetup env s).calls = [NetCall.adminLogin] := by
  obtain ⟨h1, h2, h3⟩ := doAdminLogin_of_noGrant env s h
  unfold loginAndAppSetup
  rcases ho : doAdminLogin env s with ⟨s1, r, tr⟩
  rw [ho] at h1 h2 h3
  cases r with
  | ok => exact absurd rfl h2
  | error e => simp_all

/-- Helper: when the login outcome yields no usable token pair, the in-try
fallback ends unsuccessfully with the state it was given (whether the
caught error surfaces as a TypeError or a second identical fallback runs
and fails the same way), and its first network call is the renewal. -/
theorem fallbackInsideTry_of_noGrant (env : Env) (s1 : ClientState) (call : NetCall)
    (h : loginGrant env = none) :
    (fallbackInsideTry env s1 call).state = s1 ∧
    (fallbackInsideTry env s1 call).result ≠ OpResult.ok ∧
    (fallbackInsideTry env s1 call).calls.head? = some call := by
  obtain ⟨h1, h2, h3⟩ := loginAndAppSetup_of_noGrant env s1 h
  unfold fallbackInsideTry
  rcases ho : loginAndAppSetup env s1 with ⟨st, r, tr⟩
  rw [ho] at h1 h2 h3
  simp only at h1 h2 h3
  cases r with
  | ok => exact absurd rfl h2
  | error e2 =>
    cases hhr : errorHasResponse e2
    · simp [hhr, h1]
    · obtain ⟨g1, g2, g3⟩ := loginAndAppSetup_of_noGrant env s1 h
      clear ho
      simp [hhr, h1, g1, g2]

/-- Claim C3: when a refresh attempt is made (the token is not valid) and
the renewal response carries a usable access token, only the access token,
the shared config slot holding it, and the expiry instant change; the
refresh token and every identity field are identical to before, the
operation succeeds, and the only network call is the renewal. -/
theorem refresh_success_replaces_only_access_token
    (env : Env) (s : ClientState) (tok : String)
    (hvalid : isAccessTokenValid env.now s = false)
    (href : env.refreshResult = NetResult.ok (some ⟨some ⟨some tok⟩⟩))
    (htok : tok ≠ "") :
    (ensureValidAccessToken env s).state.refreshToken = s.refreshToken ∧
    (ensureValidAccessToken env s).state.appId = s.appId ∧
    (ensureValidAccessToken env s).state.clientAppId = s.clientAppId ∧
    (ensureValidAccessToken env s).state.groupId = s.groupId ∧
    (ensureValidAccessToken env s).state.userId = s.userId ∧
    (ensureValidAccessToken env s).state.accessToken = some tok ∧
    (ensureValidAccessToken env s).state.tokenExpiration = some (env.now + 30 * 60 * 1000) ∧
    (ensureValidAccessToken env s).result = OpResult.ok ∧
    (ensureValidAccessToken env s).calls = [NetCall.adminCreateSession s.refreshToken] := by
  simp [ensureValidAccessToken, hvalid, href, htok, setAccessToken]

/-- Witness for claim C3 at a concrete stale session and a renewal that
returns the token freshAccess. -/
theorem refresh_success_replaces_only_access_token_witness :
    (ensureValidAccessToken refreshOkEnv expiredState).state.refreshToken = expiredState.refreshToken ∧
    (ensureValidAccessToken refreshOkEnv expiredState).state.appId = expiredState.appId ∧
    (ensureValidAccessToken refreshOkEnv expiredState).state.clientAppId = expiredState.clientAppId ∧
    (ensureValidAccessToken refreshOkEnv expiredState).state.groupId = expiredState.groupId ∧
    (ensureValidAccessToken refreshOkEnv expiredState).state.userId = expiredState.userId ∧
    (ensureValidAccessToken refreshOkEnv expiredState).state.accessToken = some ("freshAccess") ∧
    (ensureValidAccessToken refreshOkEnv expiredState).state.tokenExpiration =
      some (refreshOkEnv.now + 30 * 60 * 1000) ∧
    (ensureValidAccessToken refreshOkEnv expiredState).result = OpResult.ok ∧
    (ensureValidAccessToken refreshOkEnv expiredState).calls =
      [NetCall.adminCreateSession expiredState.refreshToken] :=
  refresh_success_replaces_only_access_token refreshOkEnv expiredState ("freshAccess")
    (by decide) rfl (by decide)

/-- Claim C8: when the access token is Valid, a resource-handle request for
a catalog name returns at once with the whole session state unchanged, no
network call, and a handle bound to the current config credential. -/
theorem valid_token_handle_request_no_io
    (env : Env) (s : ClientState) (name : String)
    (hvalid : isAccessTokenValid env.now s = true)
    (hname : name ∈ apiCatalog) :
    getApi env s name = ⟨s, GetApiResult.handle ⟨name, s.configAccessToken⟩, []⟩ := by
  simp [getApi, ensureValidAccessToken, hvalid, hname]

/-- Witness for claim C8 at a concrete valid session requesting the
AppsApi handle. -/
theorem valid_token_handle_request_no_io_witness :
    getApi refreshOkEnv validState ("AppsApi") =
      ⟨validState, GetApiResult.handle ⟨("AppsApi"), validState.configAccessToken⟩, []⟩ :=
  valid_token_handle_request_no_io refreshOkEnv validState ("AppsApi") (by decide) (by decide)

/-- Claim C9, amended: an unknown resource name fails with the
API-does-not-exist error only after the refresh guard has run; when the
access token is Valid the guard is silent, so the failure then happens with
no network call and no state change. -/
theorem unknown_api_with_valid_token_fails_without_network
    (env : Env) (s : ClientState) (name : String)
    (hname : name ∉ apiCatalog)
    (hvalid : isAccessTokenValid env.now s = true) :
    getApi env s name = ⟨s, GetApiResult.error ClientError.apiDoesNotExist, []⟩ := by
  simp [getApi, ensureValidAccessToken, hvalid, hname]

/-- Witness for the amended claim C9 at a concrete valid session and the
unknown name NopeApi. -/
theorem unknown_api_with_valid_token_fails_without_network_witness :
    getApi refreshOkEnv validState ("NopeApi") =
      ⟨validState, GetApiResult.error ClientError.apiDoesNotExist, []⟩ :=
  unknown_api_with_valid_token_fails_without_network refreshOkEnv validState ("NopeApi")
    (by decide) (by decide)

end AtlasClient

namespace AtlasClient

/-- Claim C2, amended: after a lifecycle run in which the login yields both
tokens and a user id and the first listed application has a usable internal
id and a present client-facing id, the session is complete (every session
field populated).  The counterexample shows the unqualified claim fails
when the app-listing step fails after a successful login. -/
theorem session_complete_after_successful_setup
    (env : Env) (s : ClientState) (tok rt u i : String)
    (a : AppRecord) (rest : List AppRecord)
    (hlogin : env.loginResult = NetResult.ok ⟨some ⟨some tok, some rt, some u⟩⟩)
    (htok : tok ≠ "") (hrt : rt ≠ "")
    (happs : env.appsResult = NetResult.ok ⟨some (a :: rest)⟩)
    (hid : a._id = some i) (hi : i ≠ "")
    (hc : a.client_app_id.isSome = true) :
    (initClient env s).result = OpResult.ok ∧
    sessionComplete (initClient env s).state = true := by
  simp [initClient, loginAndAppSetup, doAdminLogin, hlogin, happs, firstApp, hid,
        htok, hrt, hi, sessionComplete, setAccessToken, hc]

/-- Witness for the amended claim C2 on a fully successful concrete run. -/
theorem session_complete_after_successful_setup_witness :
    (initClient fullSuccessEnv (initialState ("g"))).result = OpResult.ok ∧
    sessionComplete (initClient fullSuccessEnv (initialState ("g"))).state = true :=
  session_complete_after_successful_setup fullSuccessEnv (initialState ("g"))
    ("newAccess") ("newRefresh") ("newUser") ("newApp")
    ⟨some ("newApp"), some ("newClient"), some ("newGroup")⟩ []
    rfl (by decide) (by decide) rfl rfl (by decide) (by decide)

/-- Claim C5, amended: after a successful lifecycle run the application id
equals the first listed record's internal id and is non-empty, and the
client-facing app id and workspace id are overwritten with that record's
client_app_id and group_id as returned by the service; the latter two are
copied without any non-emptiness validation. -/
theorem init_identity_from_first_application
    (env : Env) (s : ClientState) (tok rt i : String) (uid : Option String)
    (a : AppRecord) (rest : List AppRecord)
    (hlogin : env.loginResult = NetResult.ok ⟨some ⟨some tok, some rt, uid⟩⟩)
    (htok : tok ≠ "") (hrt : rt ≠ "")
    (happs : env.appsResult = NetResult.ok ⟨some (a :: rest)⟩)
    (hid : a._id = some i) (hi : i ≠ "") :
    (initClient env s).result = OpResult.ok ∧
    (initClient env s).state.appId = some i ∧
    (initClient env s).state.clientAppId = a.client_app_id ∧
    (initClient env s).state.groupId = a.group_id := by
  simp [initClient, loginAndAppSetup, doAdminLogin, hlogin, happs, firstApp, hid,
        htok, hrt, hi, setAccessToken]

/-- Witness for the amended claim C5 on a fully successful concrete run. -/
theorem init_identity_from_first_application_witness :
    (initClient fullSuccessEnv (initialState ("g"))).result = OpResult.ok ∧
    (initClient fullSuccessEnv (initialState ("g"))).state.appId = some ("newApp") ∧
    (initClient fullSuccessEnv (initialState ("g"))).state.clientAppId =
      AppRecord.client_app_id ⟨some ("newApp"), some ("newClient"), some ("newGroup")⟩ ∧
    (initClient fullSuccessEnv (initialState ("g"))).state.groupId =
      AppRecord.group_id ⟨some ("newApp"), some ("newClient"), some ("newGroup")⟩ :=
  init_identity_from_first_application fullSuccessEnv (initialState ("g"))
    ("newAccess") ("newRefresh") ("newApp") (some ("newUser"))
    ⟨some ("newApp"), some ("newClient"), some ("newGroup")⟩ []
    rfl (by decide) (by decide) rfl rfl (by decide)

/-- Claim C6, counterexample: at a stale session whose renewal resolves
with a response lacking a data body, the in-try fallback login fails with
the UnauthorizedException (as the lifecycle entry point shows at the same
environment), yet the refresh path surfaces a TypeError instead: the catch
block caught the authentication error and its log template dereferenced
the missing response field, so the error was swallowed, not propagated. -/
theorem auth_error_swallowed_on_tokenless_renewal_fallback :
    (initClient badLoginEnv expiredState).result =
      OpResult.error ClientError.unauthorizedException ∧
    (ensureValidAccessToken badLoginEnv expiredState).result =
      OpResult.error ClientError.typeErrorReadingResponse := by
  decide

/-- Claim C6, amended: a login whose response lacks a usable access token
or a usable refresh token fails with the UnauthorizedException, and the
lifecycle entry point propagates it with the state exactly as before (no
session field modified).  From the refresh path the error propagates
unchanged only through the catch-block fallback (renewal call threw an
error carrying a response); when the fallback was entered because the
renewal response merely lacked a token, the authentication error is caught
inside the try and surfaces as a TypeError instead — swallowed. -/
theorem login_failure_propagation_paths
    (env : Env) (s : ClientState) (d : AdminLoginData)
    (hlogin : env.loginResult = NetResult.ok ⟨some d⟩)
    (hbad : truthy d.access_token = false ∨ truthy d.refresh_token = false) :
    initClient env s = ⟨s, OpResult.error ClientError.unauthorizedException, [NetCall.adminLogin]⟩ ∧
    (isAccessTokenValid env.now s = false →
      env.refreshResult = NetResult.thrown ⟨true⟩ →
      (ensureValidAccessToken env s).result =
        OpResult.error ClientError.unauthorizedException) ∧
    (isAccessTokenValid env.now s = false →
      env.refreshResult = NetResult.ok (some ⟨none⟩) →
      (ensureValidAccessToken env s).result =
        OpResult.error ClientError.typeErrorReadingResponse) := by
  obtain ⟨ta, tr2, tu⟩ := d
  rcases ta with _ | tok <;> rcases tr2 with _ | rt <;>
    simp_all [truthy, initClient, loginAndAppSetup, doAdminLogin, ensureValidAccessToken,
              fallbackInsideTry, errorHasResponse]

/-- Witness for the amended claim C6 at a login response whose access
token is the empty string, against a stale session whose renewal resolves
without a data body. -/
theorem login_failure_propagation_paths_witness :
    initClient badLoginEnv expiredState =
      ⟨expiredState, OpResult.error ClientError.unauthorizedException, [NetCall.adminLogin]⟩ ∧
    (isAccessTokenValid badLoginEnv.now expiredState = false →
      badLoginEnv.refreshResult = NetResult.thrown ⟨true⟩ →
      (ensureValidAccessToken badLoginEnv expiredState).result =
        OpResult.error ClientError.unauthorizedException) ∧
    (isAccessTokenValid badLoginEnv.now expiredState = false →
      badLoginEnv.refreshResult = NetResult.ok (some ⟨none⟩) →
      (ensureValidAccessToken badLoginEnv expiredState).result =
        OpResult.error ClientError.typeErrorReadingResponse) :=
  login_failure_propagation_paths badLoginEnv expiredState
    ⟨some (""), some ("r"), none⟩ rfl (Or.inl (by decide))

/-- Claim C7, amended: after a login that yields usable tokens, the
app-setup step fails with the AppIdRetrievalError exactly when the listing
data is missing, empty, or its first record lacks a truthy internal id; in
particular a usable id on a later record does not prevent the failure, and
when the first record has a usable id the operation succeeds. -/
theorem app_setup_fails_iff_first_app_unusable
    (env : Env) (s : ClientState) (tok rt : String) (uid : Option String)
    (d : Option (List AppRecord))
    (hlogin : env.loginResult = NetResult.ok ⟨some ⟨some tok, some rt, uid⟩⟩)
    (htok : tok ≠ "") (hrt : rt ≠ "")
    (happs : env.appsResult = NetResult.ok ⟨d⟩) :
    ((loginAndAppSetup env s).result = OpResult.error ClientError.appIdRetrievalError) ↔
      firstAppUsable d = false := by
  rcases d with _ | (_ | ⟨a, rest⟩)
  · simp [loginAndAppSetup, doAdminLogin, hlogin, happs, htok, hrt, firstApp, firstAppUsable]
  · simp [loginAndAppSetup, doAdminLogin, hlogin, happs, htok, hrt, firstApp, firstAppUsable]
  · rcases hid : a._id with _ | i
    · simp [loginAndAppSetup, doAdminLogin, hlogin, happs, htok, hrt, firstApp,
            firstAppUsable, hid, truthy]
    · by_cases hi : i = "" <;>
        simp [loginAndAppSetup, doAdminLogin, hlogin, happs, htok, hrt, firstApp,
              firstAppUsable, hid, truthy, hi]

/-- Witness for the amended claim C7 at an empty application listing. -/
theorem app_setup_fails_iff_first_app_unusable_witness :
    ((loginAndAppSetup appsEmptyEnv (initialState ("g"))).result =
        OpResult.error ClientError.appIdRetrievalError) ↔
      firstAppUsable (some []) = false :=
  app_setup_fails_iff_first_app_unusable appsEmptyEnv (initialState ("g"))
    ("newAccess") ("newRefresh") (some ("newUser")) (some [])
    rfl (by decide) (by decide) rfl

/-- Claim C10: whenever the guard finds the token not valid it issues the
renewal call with the stored refresh token already installed as the config
credential, and if neither the renewal nor the fallback login reaches a
successful setAccessToken, the operation ends unsuccessfully with the
refresh token still installed in the config slot — the pre-refresh access
token is not restored. -/
theorem failed_refresh_leaves_refresh_token_installed
    (env : Env) (s : ClientState)
    (hvalid : isAccessTokenValid env.now s = false)
    (hrg : refreshGrant env = none)
    (hlg : loginGrant env = none) :
    (ensureValidAccessToken env s).calls.head? =
      some (NetCall.adminCreateSession s.refreshToken) ∧
    (ensureValidAccessToken env s).state.configAccessToken = s.refreshToken ∧
    (ensureValidAccessToken env s).result ≠ OpResult.ok := by
  have hfall := loginAndAppSetup_of_noGrant env { s with configAccessToken := s.refreshToken } hlg
  have hfit := fallbackInsideTry_of_noGrant env { s with configAccessToken := s.refreshToken }
    (NetCall.adminCreateSession s.refreshToken) hlg
  unfold refreshGrant at hrg
  unfold ensureValidAccessToken
  cases hrr : env.refreshResult with
  | thrown e =>
    cases he : e.hasResponse
    · simp [hvalid, hrr, he]
    · simp [hvalid, hrr, he, hfall.1, hfall.2.1]
  | ok ro =>
    cases ro with
    | none => simp [hvalid, hrr]
    | some resp =>
      rw [hrr] at hrg
      obtain ⟨rdata⟩ := resp
      cases rdata with
      | none => simp [hvalid, hrr, hfit.1, hfit.2.1, hfit.2.2]
      | some dd =>
        obtain ⟨ta⟩ := dd
        cases ta with
        | none => simp [hvalid, hrr, hfit.1, hfit.2.1, hfit.2.2]
        | some tok =>
          by_cases ht : tok = ""
          · simp [hvalid, hrr, ht, hfit.1, hfit.2.1, hfit.2.2]
          · simp [ht] at hrg

/-- Witness for claim C10: stale token, renewal response without a data
body, fallback login rejected for an empty access token. -/
theorem failed_refresh_leaves_refresh_token_installed_witness :
    (ensureValidAccessToken badLoginEnv expiredState).calls.head? =
      some (NetCall.adminCreateSession expiredState.refreshToken) ∧
    (ensureValidAccessToken badLoginEnv expiredState).state.configAccessToken =
      expiredState.refreshToken ∧
    (ensureValidAccessToken badLoginEnv expiredState).result ≠ OpResult.ok :=
  failed_refresh_leaves_refresh_token_installed badLoginEnv expiredState
    (by decide) (by decide) (by decide)

end AtlasClient
